import Mathlib

/-!
Formal model of the AgenticAI chat application, translated from
`chat_app/services/session_manager.py`, `chat_app/api/routes.py` and
`app/guardrails_and_handoffs.py`.

Time is modelled as a natural number of minutes; every call of
`datetime.now()` becomes an explicit `now` argument of the operation that
reads the clock.  The `uuid.uuid4()` draw in `create_session` becomes an
explicit `newId` argument.  Python dictionaries become association lists
with first-match lookup, first-match deletion and replace-or-append
assignment, which agrees with `dict` semantics (a `dict` never holds two
entries for one key).
-/

/-- Modelled from the spec: `session_manager.py` imports `MAX_HISTORY_MESSAGES`
from `chat_app.config.settings`, but the settings module present under `src/`
does not define it; the spec fixes the default maximum retained turns per
session at 50. -/
def MAX_HISTORY_MESSAGES : Nat := 50

/-- Modelled from the spec: `session_manager.py` imports
`SESSION_TIMEOUT_MINUTES` from `chat_app.config.settings`, also missing from
the settings module under `src/`; the spec fixes the default idle-expiry
window at 30 minutes. -/
def SESSION_TIMEOUT_MINUTES : Nat := 30

/-- One message of a conversation (`Message` dataclass in
`session_manager.py`): role, content, creation timestamp and the optional
name of the agent that produced it. -/
structure Message where
  role : String
  content : String
  timestamp : Nat
  agent_used : Option String
  deriving DecidableEq

/-- A user session with conversation history (`Session` dataclass in
`session_manager.py`). -/
structure Session where
  session_id : String
  messages : List Message
  created_at : Nat
  last_activity : Nat
  deriving DecidableEq

/-- Construction `Session(session_id=sid)`: the dataclass default factories
set `messages = []` and both timestamps to `datetime.now()`. -/
def newSession (session_id : String) (now : Nat) : Session :=
  { session_id := session_id, messages := [], created_at := now,
    last_activity := now }

/-- `Session.add_message`: append the message, refresh `last_activity`, and
keep only the last `MAX_HISTORY_MESSAGES` messages
(`self.messages = self.messages[-MAX_HISTORY_MESSAGES:]`). -/
def Session.add_message (s : Session) (role : String) (content : String)
    (agent_used : Option String) (now : Nat) : Session :=
  let msgs := s.messages ++ [{ role := role, content := content,
                               timestamp := now, agent_used := agent_used }]
  { s with
    messages :=
      if msgs.length > MAX_HISTORY_MESSAGES then
        msgs.drop (msgs.length - MAX_HISTORY_MESSAGES)
      else msgs,
    last_activity := now }

/-- One entry of the history handed to the agent
(`Session.get_history_for_agent`). -/
structure HistoryEntry where
  role : String
  content : String
  deriving DecidableEq

/-- `Session.get_history_for_agent`: the conversation as role/content pairs. -/
def Session.get_history_for_agent (s : Session) : List HistoryEntry :=
  s.messages.map (fun msg => { role := msg.role, content := msg.content })

/-- `Session.is_expired`: `datetime.now() - self.last_activity >
timedelta(minutes=SESSION_TIMEOUT_MINUTES)`, with time in minutes.  A
`last_activity` in the future gives a negative timedelta in Python and a
zero difference in `Nat`; neither exceeds the positive timeout. -/
def Session.is_expired (s : Session) (now : Nat) : Bool :=
  decide (SESSION_TIMEOUT_MINUTES < now - s.last_activity)

/-- Python `dict` lookup `d.get(k)` over the association-list model. -/
def dictGet (l : List (String × Session)) (k : String) : Option Session :=
  (l.find? (fun p => p.1 == k)).map Prod.snd

/-- Python `dict` assignment `d[k] = v`: replace the entry for `k` if one
exists, otherwise append a new entry. -/
def dictSet : List (String × Session) → String → Session →
    List (String × Session)
  | [], k, v => [(k, v)]
  | p :: l, k, v => if p.1 == k then (k, v) :: l else p :: dictSet l k v

/-- The session store (`SessionManager` in `session_manager.py`): its
`_sessions` dictionary, as an association list. -/
structure SessionManager where
  sessions : List (String × Session)
  deriving DecidableEq

/-- `SessionManager.create_session`: insert a fresh empty session under the
freshly drawn id and return the id. -/
def SessionManager.create_session (m : SessionManager) (newId : String)
    (now : Nat) : String × SessionManager :=
  (newId, ⟨dictSet m.sessions newId (newSession newId now)⟩)

/-- `SessionManager.delete_session`: remove the entry if the key is present
and report whether it existed. -/
def SessionManager.delete_session (m : SessionManager) (session_id : String) :
    Bool × SessionManager :=
  if m.sessions.any (fun p => p.1 == session_id) then
    (true, ⟨m.sessions.eraseP (fun p => p.1 == session_id)⟩)
  else (false, m)

/-- `SessionManager.get_session`: `None` if absent; if present but expired,
delete it as a side effect and return `None`; otherwise return the session. -/
def SessionManager.get_session (m : SessionManager) (session_id : String)
    (now : Nat) : Option Session × SessionManager :=
  match dictGet m.sessions session_id with
  | none => (none, m)
  | some s =>
    if s.is_expired now then (none, (m.delete_session session_id).2)
    else (some s, m)

/-- `SessionManager.get_or_create_session`: `if session_id:` is Python string
truthiness, so `None` and the empty string both skip the lookup; an absent or
expired id falls through to `create_session`, and the code then returns
`self._sessions[new_id]`, the just-inserted fresh session. -/
def SessionManager.get_or_create_session (m : SessionManager)
    (session_id : Option String) (now : Nat) (newId : String) :
    Session × SessionManager :=
  match session_id with
  | some sid =>
    if sid == "" then (newSession newId now, (m.create_session newId now).2)
    else
      match m.get_session sid now with
      | (some s, m1) => (s, m1)
      | (none, m1) => (newSession newId now, (m1.create_session newId now).2)
  | none => (newSession newId now, (m.create_session newId now).2)

/-- `SessionManager.cleanup_expired_sessions`: collect the ids of the expired
sessions, delete each collected key from the dictionary, and return how many
were collected. -/
def SessionManager.cleanup_expired_sessions (m : SessionManager) (now : Nat) :
    Nat × SessionManager :=
  let expired :=
    (m.sessions.filter (fun p => p.2.is_expired now)).map Prod.fst
  (expired.length,
   ⟨expired.foldl (fun l sid => l.eraseP (fun p => p.1 == sid)) m.sessions⟩)

/-- `SessionManager.get_session_count`: `len(self._sessions)`. -/
def SessionManager.get_session_count (m : SessionManager) : Nat :=
  m.sessions.length

/-- One append call, as issued against `Session.add_message`. -/
structure AppendCall where
  role : String
  content : String
  agent_used : Option String
  time : Nat
  deriving DecidableEq

/-- The `Message` record that `Session.add_message` builds for a call. -/
def AppendCall.toMessage (c : AppendCall) : Message :=
  { role := c.role, content := c.content, timestamp := c.time,
    agent_used := c.agent_used }

/-- A sequence of `Session.add_message` calls on one session. -/
def appendAll (s : Session) (calls : List AppendCall) : Session :=
  calls.foldl
    (fun acc c => acc.add_message c.role c.content c.agent_used c.time) s

/-- The last `n` elements of a list, Python's `l[-n:]` for positive `n`. -/
def lastN (n : Nat) (l : List α) : List α :=
  l.drop (l.length - n)

/-!
Streaming orchestration (`chat_app/api/routes.py`).  The responder (the
OpenAI Agents SDK `Runner`) is an external collaborator; its behaviour on one
turn is a parameter.  Server-sent-event frames are modelled structurally by
their `type` discriminator and payload.
-/

/-- One normalized frame of the server-sent event stream, the JSON object
`stream_response` serializes per `yield`. -/
inductive Frame
  | session (session_id : String)
  | agent (name : String)
  | content (text : String)
  | done (agent : String)
  | error (msg : String)
  deriving DecidableEq

/-- The `delta` object of one element of `data.choices` in the Chat
Completions streaming format; `content` may be absent or `None`. -/
structure ChoiceDelta where
  content : Option String
  deriving DecidableEq

/-- One element of `data.choices`; `delta` may be absent or `None`. -/
structure StreamChoice where
  delta : Option ChoiceDelta
  deriving DecidableEq

/-- The `data` carried by a raw response event: an OpenAI Responses API text
delta (`response.output_text.delta`), a Chat Completions chunk with a
`choices` list, or anything else. -/
inductive RawData
  | outputTextDelta (delta : String)
  | chatChunk (choices : List StreamChoice)
  | otherData
  deriving DecidableEq

/-- One event of `result.stream_events()`: an `agent_updated_stream_event`,
a `raw_response_event`, or any other event type. -/
inductive SdkEvent
  | agentUpdated (name : String)
  | rawResponse (data : RawData)
  | otherEvent
  deriving DecidableEq

/-- Whether the responder's event stream ends normally or raises. -/
inductive StreamOutcome
  | success
  | failure (msg : String)
  deriving DecidableEq

/-- The behaviour of `Runner.run_streamed` on one turn: the events delivered
before the stream ends (on `failure`, the events delivered before the raise),
and the `final_output` / `last_agent` observed after exhaustion.
`last_agent = none` models `result.last_agent` raising or being absent, which
`stream_response` swallows with an inner `try`/`except`. -/
structure StreamedRun where
  events : List SdkEvent
  outcome : StreamOutcome
  final_output : String
  last_agent : Option String
  deriving DecidableEq

/-- The behaviour of `await Runner.run` on one turn (the non-streaming path):
`final_output` plus the optional `last_agent` attribute
(`hasattr(result, 'last_agent')`). -/
structure RunResult where
  final_output : String
  last_agent : Option String
  deriving DecidableEq

/-- Text extracted from a raw response event, mirroring the truthiness checks
of `stream_response`: an empty `delta`, an empty `choices` list, a missing
`delta` attribute and a missing or empty `content` all yield nothing. -/
def deltaOfData : RawData → Option String
  | RawData.outputTextDelta d => if d = "" then none else some d
  | RawData.chatChunk choices =>
    match choices.head? with
    | none => none
    | some c =>
      match c.delta with
      | none => none
      | some cd =>
        match cd.content with
        | none => none
        | some s => if s = "" then none else some s
  | RawData.otherData => none

/-- Text extracted from one SDK event (only raw response events carry text). -/
def eventDelta : SdkEvent → Option String
  | SdkEvent.rawResponse d => deltaOfData d
  | _ => none

/-- The `async for event in result.stream_events()` loop of
`stream_response`: threading `full_response` and `current_agent` through the
events and collecting the frames the loop yields, in order. -/
def processEvents : List SdkEvent → String → String →
    String × String × List Frame
  | [], full, cur => (full, cur, [])
  | e :: es, full, cur =>
    match e with
    | SdkEvent.agentUpdated name =>
      let r := processEvents es full name
      (r.1, r.2.1, Frame.agent name :: r.2.2)
    | SdkEvent.rawResponse d =>
      match deltaOfData d with
      | some t =>
        let r := processEvents es (full ++ t) cur
        (r.1, r.2.1, Frame.content t :: r.2.2)
      | none => processEvents es full cur
    | SdkEvent.otherEvent => processEvents es full cur

/-- The fragment of both request paths that runs before the responder is
invoked: resolve the session via `get_or_create_session`, append the user
turn with `session.add_message("user", message)`, and write the mutated
session back into the store (the Python code mutates the stored object in
place). -/
def afterUserAppend (message : String) (session_id : Option String)
    (m : SessionManager) (now : Nat) (newId : String) :
    Session × SessionManager :=
  let r := m.get_or_create_session session_id now newId
  let s2 := r.1.add_message ("user") message none now
  (s2, ⟨dictSet r.2.sessions r.1.session_id s2⟩)

/-- `stream_response` in `routes.py`: emit the `session` frame, forward the
responder's events as `agent` / `content` frames while accumulating
`full_response`, fall back to `result.final_output` as a single `content`
frame when nothing was streamed but the final output is non-empty, append
exactly one assistant turn, and emit `done`; if the responder raises at any
point, emit a terminal `error` frame instead and leave the session with only
the user turn appended. -/
def stream_response (message : String) (session_id : Option String)
    (m : SessionManager) (now : Nat) (newId : String) (run : StreamedRun) :
    List Frame × SessionManager :=
  let a := afterUserAppend message session_id m now newId
  let s2 := a.1
  let m2 := a.2
  let r := processEvents run.events ("") ("Triage Assistant")
  match run.outcome with
  | StreamOutcome.failure e =>
    (Frame.session s2.session_id :: (r.2.2 ++ [Frame.error e]), m2)
  | StreamOutcome.success =>
    let current_agent :=
      match run.last_agent with
      | some name => name
      | none => r.2.1
    if r.1 = "" ∧ run.final_output ≠ "" then
      let s3 := s2.add_message ("assistant") run.final_output
        (some current_agent) now
      (Frame.session s2.session_id ::
         (r.2.2 ++ [Frame.content run.final_output,
                    Frame.done current_agent]),
       ⟨dictSet m2.sessions s2.session_id s3⟩)
    else
      let s3 := s2.add_message ("assistant") r.1 (some current_agent) now
      (Frame.session s2.session_id :: (r.2.2 ++ [Frame.done current_agent]),
       ⟨dictSet m2.sessions s2.session_id s3⟩)

/-- The response model of the non-streaming endpoint (`ChatResponse`). -/
structure ChatResponse where
  response : String
  agent_used : String
  success : Bool
  session_id : String
  error : Option String
  deriving DecidableEq

/-- `send_message` in `routes.py` (non-streaming path).  `run` is the
behaviour of `await Runner.run`: `Except.error e` models the call raising.
The handler's `except` clause re-raises an `HTTPException` whose detail is
`"Error processing message: " ++ e`; that raised exception is the
`Except.error` of the result.  On success the handler appends the assistant
turn and returns a `ChatResponse` with `success = true`. -/
def send_message (message : String) (session_id : Option String)
    (m : SessionManager) (now : Nat) (newId : String)
    (run : Except String RunResult) :
    Except String ChatResponse × SessionManager :=
  let a := afterUserAppend message session_id m now newId
  let s2 := a.1
  let m2 := a.2
  match run with
  | Except.error e =>
    (Except.error ("Error processing message: " ++ e), m2)
  | Except.ok res =>
    let agent_name :=
      match res.last_agent with
      | some name => name
      | none => "Triage Assistant"
    let s3 := s2.add_message ("assistant") res.final_output
      (some agent_name) now
    (Except.ok { response := res.final_output, agent_used := agent_name,
                 success := true, session_id := s2.session_id,
                 error := none },
     ⟨dictSet m2.sessions s2.session_id s3⟩)

/-- Concatenation of a list of strings, used for delta payloads. -/
def strJoin (l : List String) : String :=
  l.foldr (fun a b => a ++ b) ""

/-- The payload of a `content` frame, nothing for other frames. -/
def framePayload : Frame → Option String
  | Frame.content t => some t
  | _ => none

/-- Concatenation, in emission order, of the payloads of the `content`
frames of a stream. -/
def contentConcat (frames : List Frame) : String :=
  strJoin (frames.filterMap framePayload)

/-- Whether a frame is one of the two kinds the event loop itself yields. -/
def isMidFrame : Frame → Bool
  | Frame.agent _ => true
  | Frame.content _ => true
  | _ => false

/-!
Input/output guardrails and the manual orchestration path of
`app/guardrails_and_handoffs.py`.  The three input regexes and the two
output regexes are modelled literally over lists of characters: `\b` is a
word boundary with respect to `[A-Za-z0-9_]`, and the `.*` between the two
word groups matches any characters except a newline (Python `re` without
`DOTALL`).
-/

/-- Python regex `\w` on ASCII input: letters, digits and underscore. -/
def isWordChar (c : Char) : Bool :=
  c.isAlphanum || c == '_'

/-- Python `str.strip()` whitespace on ASCII input
(`' '`, `\t`, `\n`, `\r`, `\x0b`, `\x0c`). -/
def isPySpace (c : Char) : Bool :=
  c == ' ' || c == '\t' || c == '\n' || c == '\r' || c == '\x0b' || c == '\x0c'

/-- Python `str.strip()`: remove leading and trailing whitespace. -/
def pyStrip (cs : List Char) : List Char :=
  ((cs.dropWhile isPySpace).reverse.dropWhile isPySpace).reverse

/-- True when no word character sits at index `i` (out of range counts as a
boundary, as at the ends of the subject string). -/
def noWordCharAt (cs : List Char) (i : Nat) : Bool :=
  match cs[i]? with
  | some c => !isWordChar c
  | none => true

/-- A `\b` word boundary immediately before index `i`. -/
def boundaryAt (cs : List Char) (i : Nat) : Bool :=
  match i with
  | 0 => true
  | j + 1 => noWordCharAt cs j

/-- The characters of `w` occur literally at index `i` of `cs`. -/
def matchChars (cs : List Char) (i : Nat) (w : List Char) : Bool :=
  (cs.drop i).take w.length == w

/-- `\b w \b` matches at index `i`. -/
def wordAt (cs : List Char) (i : Nat) (w : List Char) : Bool :=
  matchChars cs i w && boundaryAt cs i && noWordCharAt cs (i + w.length)

/-- Some alternative of a `\b(w|...|w)\b` group matches at index `i`. -/
def anyWordAt (cs : List Char) (i : Nat) (ws : List String) : Bool :=
  ws.any (fun w => wordAt cs i w.toList)

/-- `re.search` of `\b(w|...|w)\b` over the whole subject. -/
def hasAnyWord (cs : List Char) (ws : List String) : Bool :=
  (List.range (cs.length + 1)).any (fun i => anyWordAt cs i ws)

/-- The gap consumed by `.*` between positions `a` and `b` holds no newline. -/
def gapOk (cs : List Char) (a b : Nat) : Bool :=
  ((cs.drop a).take (b - a)).all (fun c => c != '\n')

/-- `re.search` of `\b(g1)\b.*\b(g2)\b`: a first group word with boundaries
on both sides, then a newline-free gap, then a second group word with
boundaries on both sides. -/
def hasWordPair (cs : List Char) (ws1 ws2 : List String) : Bool :=
  (List.range (cs.length + 1)).any (fun i =>
    ws1.any (fun w1 =>
      wordAt cs i w1.toList &&
      (List.range (cs.length + 1)).any (fun j =>
        decide (i + w1.length ≤ j) && anyWordAt cs j ws2 &&
        gapOk cs (i + w1.length) j)))

/-- `\b w ...` matches at index `i` with a boundary only on the left (the
output patterns put no `\b` after their first group). -/
def startTokenAt (cs : List Char) (i : Nat) (w : List Char) : Bool :=
  matchChars cs i w && boundaryAt cs i

/-- `... w \b` matches at index `i` with a boundary only on the right (the
output patterns put no `\b` before their second group). -/
def endTokenAt (cs : List Char) (i : Nat) (w : List Char) : Bool :=
  matchChars cs i w && noWordCharAt cs (i + w.length)

/-- `re.search` of `\b(g1).*(g2)\b`, the shape of both output patterns. -/
def hasLoosePair (cs : List Char) (ws1 ws2 : List String) : Bool :=
  (List.range (cs.length + 1)).any (fun i =>
    ws1.any (fun w1 =>
      startTokenAt cs i w1.toList &&
      (List.range (cs.length + 1)).any (fun j =>
        decide (i + w1.length ≤ j) &&
        ws2.any (fun w2 => endTokenAt cs j w2.toList) &&
        gapOk cs (i + w1.length) j)))

/-- The three `unsafe_patterns` of `check_unsafe_content`, searched in
order; the function returns the same verdict for any of them, so the search
is their disjunction. -/
def unsafeInputMatch (cs : List Char) : Bool :=
  hasAnyWord cs [("hack"), ("exploit"), ("attack"), ("malware"), ("virus")]
  || hasWordPair cs [("steal"), ("leak"), ("bypass")]
       [("data"), ("password"), ("system")]
  || hasWordPair cs [("illegal"), ("harmful")] [("activity"), ("content")]

/-- The two `harmful_patterns` of `check_unsafe_output`. -/
def unsafeOutputMatch (cs : List Char) : Bool :=
  hasLoosePair cs [("how to"), ("guide"), ("instructions")]
    [("harm"), ("hurt"), ("attack")]
  || hasLoosePair cs [("illegal"), ("unlawful")] [("activity"), ("method")]

/-- The verdict structure returned by both guardrail functions: the
`output_info` dictionary (`is_safe`, `reason`) plus the tripwire flag. -/
structure GuardrailFunctionOutput where
  is_safe : Bool
  reason : String
  tripwire_triggered : Bool
  deriving DecidableEq

/-- `check_unsafe_content`: reject empty (whitespace-only) input first, then
search the three unsafe patterns over the lower-cased input. -/
def check_unsafe_content (input_data : String) : GuardrailFunctionOutput :=
  let content_lower := input_data.toList.map Char.toLower
  if (pyStrip input_data.toList).length = 0 then
    { is_safe := false, reason := "Input cannot be empty.",
      tripwire_triggered := true }
  else if unsafeInputMatch content_lower then
    { is_safe := false,
      reason := "Input contains unsafe content and cannot be processed.",
      tripwire_triggered := true }
  else
    { is_safe := true, reason := "Input passed safety checks.",
      tripwire_triggered := false }

/-- `check_unsafe_output`: reject output shorter than 10 characters after
stripping, then search the two harmful patterns over the lower-cased
output. -/
def check_unsafe_output (output_data : String) : GuardrailFunctionOutput :=
  let content_lower := output_data.toList.map Char.toLower
  if (pyStrip output_data.toList).length < 10 then
    { is_safe := false, reason := "Output is too short or empty.",
      tripwire_triggered := true }
  else if unsafeOutputMatch content_lower then
    { is_safe := false,
      reason := "Output contains potentially harmful content.",
      tripwire_triggered := true }
  else
    { is_safe := true, reason := "Output passed safety checks.",
      tripwire_triggered := false }

/-- Substring containment, Python's `word in text`. -/
def containsSub (cs : List Char) (w : String) : Bool :=
  (List.range (cs.length + 1)).any (fun i => matchChars cs i w.toList)

/-- Instructions of the Math Tutor agent (`create_math_tutor_agent`). -/
def mathInstructions : String :=
  "You are a Math Tutor. Help students understand math concepts, solve problems, and explain solutions clearly."

/-- Instructions of the AI Expert agent (`create_ai_expert_agent`). -/
def aiInstructions : String :=
  "You are an AI Expert. Explain AI concepts, machine learning algorithms, and help with AI-related questions."

/-- Instructions of the Business Specialist agent
(`create_business_specialist_agent`). -/
def businessInstructions : String :=
  "You are a Business Specialist. Provide advice on business strategy, marketing, finance, and entrepreneurship."

/-- Step 2 of the manual path of `process_with_guardrails_and_handoffs`:
keyword routing over the lower-cased input, returning the chosen
specialist's instructions and the `routed_to` name. -/
def routeSpecialist (lower : List Char) : String × String :=
  if [("math"), ("equation"), ("solve"), ("calculate"),
      ("algebra")].any (fun w => containsSub lower w) then
    (mathInstructions, "Math Tutor")
  else if [("ai"), ("machine learning"), ("neural"),
      ("artificial intelligence")].any (fun w => containsSub lower w) then
    (aiInstructions, "AI Expert")
  else if [("business"), ("marketing"), ("strategy"),
      ("finance")].any (fun w => containsSub lower w) then
    (businessInstructions, "Business Specialist")
  else (aiInstructions, "AI Expert")

/-- Effects of interest performed by the manual path of
`process_with_guardrails_and_handoffs`, in execution order.  The module
keeps no session store and records no conversation turns, so the embedding
can only ever emit `responder_invoked`; the two append constructors exist to
state that the function performs no such mutation. -/
inductive TurnAction
  | responder_invoked (system_msg : String) (user_msg : String)
  | user_turn_appended (content : String)
  | assistant_turn_appended (content : String)
  deriving DecidableEq

/-- The result record of `process_with_guardrails_and_handoffs`
(`HandoffResult` pydantic model). -/
structure HandoffResult where
  success : Bool
  routed_to : String
  final_response : String
  guardrail_passed : Bool
  warnings : List String
  errors : List String
  deriving DecidableEq

/-- The manual (non-OpenAI) branch of `process_with_guardrails_and_handoffs`:
input guardrail, short-circuit on tripwire, keyword routing, one chat
completion call (`complete`; `Except.error` models the call raising, which
the surrounding `try`/`except` converts to a blocked or error result), then
the output guardrail.  The second component lists the effects performed. -/
def process_with_guardrails_manual (user_input : String)
    (complete : Except String String) : HandoffResult × List TurnAction :=
  let input_check := check_unsafe_content user_input
  if input_check.tripwire_triggered then
    ({ success := false, routed_to := "blocked",
       final_response := "Request blocked by safety guardrails.",
       guardrail_passed := false, warnings := [],
       errors := [input_check.reason] }, [])
  else
    let route := routeSpecialist (user_input.toList.map Char.toLower)
    let acts := [TurnAction.responder_invoked route.1 user_input]
    match complete with
    | Except.error e =>
      let lower_e := e.toList.map Char.toLower
      if containsSub lower_e ("guardrail") || containsSub lower_e ("unsafe")
      then
        ({ success := false, routed_to := "blocked",
           final_response := "Request blocked by safety guardrails.",
           guardrail_passed := false, warnings := [], errors := [e] }, acts)
      else
        ({ success := false, routed_to := "error", final_response := "",
           guardrail_passed := false, warnings := [], errors := [e] }, acts)
    | Except.ok final_output =>
      let output_check := check_unsafe_output final_output
      if output_check.tripwire_triggered then
        ({ success := false, routed_to := route.2,
           final_response := "Response blocked by safety guardrails.",
           guardrail_passed := false, warnings := [],
           errors := [output_check.reason] }, acts)
      else
        ({ success := true, routed_to := route.2,
           final_response := final_output, guardrail_passed := true,
           warnings := [], errors := [] }, acts)

/-! General lemmas about `lastN` and the history buffer. -/

theorem lastN_all (n : Nat) (l : List α) (h : l.length ≤ n) : lastN n l = l := by
  unfold lastN
  rw [Nat.sub_eq_zero_of_le h, List.drop_zero]

theorem length_lastN (n : Nat) (l : List α) :
    (lastN n l).length = l.length - (l.length - n) := by
  unfold lastN
  exact List.length_drop _ _

theorem lastN_append_right (n : Nat) (A B : List α) (h : n ≤ B.length) :
    lastN n (A ++ B) = lastN n B := by
  unfold lastN
  rw [List.length_append, List.drop_append_eq_append_drop,
    List.drop_eq_nil_of_le (show A.length ≤ A.length + B.length - n by omega),
    List.nil_append]
  congr 1
  omega

theorem lastN_idem_append (n : Nat) (A B : List α) :
    lastN n (lastN n A ++ B) = lastN n (A ++ B) := by
  by_cases h : n ≤ A.length
  · have h2 : n ≤ (A.drop (A.length - n) ++ B).length := by
      rw [List.length_append, List.length_drop]
      omega
    conv_rhs => rw [← List.take_append_drop (A.length - n) A,
      List.append_assoc]
    rw [lastN_append_right n _ _ h2]
    rfl
  · rw [lastN_all n A (by omega)]

theorem lastN_append_singleton (n : Nat) (hn : 1 ≤ n) (A : List α) (a : α) :
    lastN n (A ++ [a]) = A.drop (A.length + 1 - n) ++ [a] := by
  unfold lastN
  rw [List.drop_append_eq_append_drop]
  have h1 : (A ++ [a]).length = A.length + 1 := by simp
  rw [h1]
  have h2 : A.length + 1 - n - A.length = 0 := by omega
  rw [h2, List.drop_zero]

theorem add_message_messages (s : Session) (role content : String)
    (agent : Option String) (now : Nat) :
    (s.add_message role content agent now).messages =
      lastN MAX_HISTORY_MESSAGES
        (s.messages ++ [{ role := role, content := content,
                          timestamp := now, agent_used := agent }]) := by
  unfold Session.add_message lastN
  dsimp only
  split
  · rfl
  · next h =>
    rw [Nat.sub_eq_zero_of_le (by omega), List.drop_zero]

theorem add_message_last_activity (s : Session) (role content : String)
    (agent : Option String) (now : Nat) :
    (s.add_message role content agent now).last_activity = now := rfl

theorem add_message_session_id (s : Session) (role content : String)
    (agent : Option String) (now : Nat) :
    (s.add_message role content agent now).session_id = s.session_id := rfl

theorem appendAll_messages :
    ∀ (calls : List AppendCall) (s : Session),
    s.messages.length ≤ MAX_HISTORY_MESSAGES →
    (appendAll s calls).messages =
      lastN MAX_HISTORY_MESSAGES
        (s.messages ++ calls.map AppendCall.toMessage)
  | [], s, h => by
    simp only [appendAll, List.foldl_nil, List.map_nil, List.append_nil]
    rw [lastN_all _ _ h]
  | c :: cs, s, h => by
    have hstep := add_message_messages s c.role c.content c.agent_used c.time
    have hlen : (s.add_message c.role c.content c.agent_used
        c.time).messages.length ≤ MAX_HISTORY_MESSAGES := by
      rw [hstep, length_lastN]
      omega
    have ih := appendAll_messages cs
      (s.add_message c.role c.content c.agent_used c.time) hlen
    show (appendAll (s.add_message c.role c.content c.agent_used c.time)
        cs).messages = _
    rw [ih, hstep, lastN_idem_append, List.append_assoc]
    rfl

/-! Claim theorems. -/

/-- C1: for every session respecting the bounded-history invariant and every
sequence of `add_message` calls longer than the configured maximum
`MAX_HISTORY_MESSAGES`, the stored turns are exactly the most recent
`MAX_HISTORY_MESSAGES` appended turns, in their original relative order
(oldest evicted first), and the stored turn count is exactly the maximum.
The state after any one call of a longer sequence is obtained by
instantiating `calls` with the prefix of calls issued so far. -/
theorem claim1_fifo_truncation (s : Session) (calls : List AppendCall)
    (hs : s.messages.length ≤ MAX_HISTORY_MESSAGES)
    (hlen : MAX_HISTORY_MESSAGES < calls.length) :
    (appendAll s calls).messages =
      (calls.map AppendCall.toMessage).drop
        (calls.length - MAX_HISTORY_MESSAGES) ∧
    (appendAll s calls).messages.length = MAX_HISTORY_MESSAGES := by
  have h1 := appendAll_messages calls s hs
  have h2 : MAX_HISTORY_MESSAGES ≤ (calls.map AppendCall.toMessage).length := by
    rw [List.length_map]
    omega
  rw [h1, lastN_append_right _ _ _ h2]
  constructor
  · unfold lastN
    rw [List.length_map]
  · unfold lastN
    rw [List.length_drop, List.length_map]
    omega

/-- Witness for C1 at a concrete run of 51 appends against a fresh session. -/
theorem claim1_witness :
    ((newSession ("w") 0).messages.length ≤ MAX_HISTORY_MESSAGES ∧
     MAX_HISTORY_MESSAGES <
       (List.replicate 51 (AppendCall.mk ("user") ("x") none 1)).length) ∧
    ((appendAll (newSession ("w") 0)
        (List.replicate 51 (AppendCall.mk ("user") ("x") none 1))).messages =
      ((List.replicate 51 (AppendCall.mk ("user") ("x") none 1)).map
          AppendCall.toMessage).drop
        ((List.replicate 51 (AppendCall.mk ("user") ("x") none 1)).length -
          MAX_HISTORY_MESSAGES) ∧
     (appendAll (newSession ("w") 0)
        (List.replicate 51 (AppendCall.mk ("user") ("x")
          none 1))).messages.length = MAX_HISTORY_MESSAGES) :=
  ⟨⟨by decide, by decide⟩,
   claim1_fifo_truncation _ _ (by decide) (by decide)⟩

/-- C8: `add_message` is the sole mutation of a session, and it always sets
`last_activity` to the time of the call (also when the append triggers
truncation); under a monotone clock the session's `last_activity` is
therefore non-decreasing across its lifetime. -/
theorem claim8_last_activity_monotone (s : Session) (role content : String)
    (agent : Option String) (now : Nat) (h : s.last_activity ≤ now) :
    (s.add_message role content agent now).last_activity = now ∧
    s.last_activity ≤ (s.add_message role content agent now).last_activity :=
  ⟨rfl, h⟩

/-- Witness for C8 at a concrete session and append. -/
theorem claim8_witness :
    (newSession ("w") 1).last_activity ≤ 5 ∧
    (((newSession ("w") 1).add_message ("user") ("x")
        none 5).last_activity = 5 ∧
     (newSession ("w") 1).last_activity ≤
       ((newSession ("w") 1).add_message ("user") ("x")
         none 5).last_activity) :=
  ⟨by decide, claim8_last_activity_monotone _ _ _ _ _ (by decide)⟩

/-- C4: `get_session` returns a session exactly when one is present under the
id and not expired; when the stored session is present but expired,
`get_session` deletes it as a side effect, returns `none`, and the store's
session count decreases by one. -/
theorem claim4_lazy_expiry (m : SessionManager) (sid : String) (now : Nat) :
    (∀ s, (m.get_session sid now).1 = some s ↔
      (dictGet m.sessions sid = some s ∧ s.is_expired now = false)) ∧
    (∀ s, dictGet m.sessions sid = some s → s.is_expired now = true →
      (m.get_session sid now).1 = none ∧
      m.get_session_count = (m.get_session sid now).2.get_session_count + 1) := by
  cases hd : dictGet m.sessions sid with
  | none =>
    constructor
    · intro s
      simp [SessionManager.get_session, hd]
    · intro s hs
      exact absurd hs (by simp)
  | some s0 =>
    have hfind : ∃ p, m.sessions.find? (fun p => p.1 == sid) = some p ∧
        p.2 = s0 := by
      unfold dictGet at hd
      rcases Option.map_eq_some'.mp hd with ⟨p, hp, hps⟩
      exact ⟨p, hp, hps⟩
    by_cases hexp : s0.is_expired now
    · constructor
      · intro s
        simp only [SessionManager.get_session, hd, hexp, if_true]
        constructor
        · intro hfalse
          exact absurd hfalse (by simp)
        · rintro ⟨hs, hse⟩
          cases hs
          rw [hexp] at hse
          cases hse
      · intro s hs hse
        cases hs
        rcases hfind with ⟨p, hp, hps⟩
        have hpmem := List.mem_of_find?_eq_some hp
        have hppred := List.find?_some hp
        have hany : m.sessions.any (fun p => p.1 == sid) = true :=
          List.any_eq_true.mpr ⟨p, hpmem, hppred⟩
        have hlen : (m.sessions.eraseP (fun p => p.1 == sid)).length =
            m.sessions.length - 1 :=
          List.length_eraseP_of_mem hpmem hppred
        have hpos : 1 ≤ m.sessions.length :=
          List.length_pos.mpr (List.ne_nil_of_mem hpmem)
        constructor
        · simp [SessionManager.get_session, hd, hexp]
        · simp only [SessionManager.get_session, hd, hexp, if_true,
            SessionManager.delete_session, hany,
            SessionManager.get_session_count]
          omega
    · rw [Bool.not_eq_true] at hexp
      constructor
      · intro s
        simp only [SessionManager.get_session, hd, hexp]
        constructor
        · intro hsome
          rw [if_neg (by simp [hexp])] at hsome
          cases hsome
          exact ⟨rfl, hexp⟩
        · rintro ⟨hs, _⟩
          cases hs
          rw [if_neg (by simp [hexp])]
      · intro s hs hse
        cases hs
        rw [hexp] at hse
        cases hse

/-- Witness for C4 at a store holding one session idle for 31 minutes. -/
theorem claim4_witness :
    ((SessionManager.mk [(("a"), Session.mk ("a") [] 0 0)]).get_session
        ("a") 31).1 = none ∧
    (SessionManager.mk [(("a"),
        Session.mk ("a") [] 0 0)]).get_session_count =
      ((SessionManager.mk [(("a"), Session.mk ("a") [] 0 0)]).get_session
        ("a") 31).2.get_session_count + 1 :=
  (claim4_lazy_expiry ⟨[(("a"), Session.mk ("a") [] 0 0)]⟩ ("a") 31).2
    (Session.mk ("a") [] 0 0) (by decide) (by decide)

/-- C5: when the presented identity is `none`, absent from the store, or that
of an expired session, `get_or_create_session` returns a freshly created
empty session, not expired at creation time, carrying the freshly drawn
identity (hence an identity different from any distinct presented one); when
the presented identity resolves to a present, non-expired session, that
existing session is returned. -/
theorem claim5_get_or_create (m : SessionManager) (sidOpt : Option String)
    (now : Nat) (newId : String) :
    ((sidOpt = none ∨
      (∃ sid, sidOpt = some sid ∧
        (dictGet m.sessions sid = none ∨
         (∃ s0, dictGet m.sessions sid = some s0 ∧
           s0.is_expired now = true)))) →
      ((m.get_or_create_session sidOpt now newId).1 = newSession newId now ∧
       (m.get_or_create_session sidOpt now newId).1.messages = [] ∧
       (m.get_or_create_session sidOpt now newId).1.is_expired now = false ∧
       (m.get_or_create_session sidOpt now newId).1.session_id = newId ∧
       (∀ sid, sidOpt = some sid → newId ≠ sid →
         (m.get_or_create_session sidOpt now newId).1.session_id ≠ sid))) ∧
    (∀ sid s0, sidOpt = some sid → sid ≠ "" →
      dictGet m.sessions sid = some s0 → s0.is_expired now = false →
      (m.get_or_create_session sidOpt now newId).1 = s0) := by
  have hfresh : (newSession newId now).is_expired now = false := by
    simp [newSession, Session.is_expired]
  constructor
  · intro hcase
    have hgoal : (m.get_or_create_session sidOpt now newId).1 =
        newSession newId now := by
      rcases hcase with hnone | ⟨sid, hsid, hrest⟩
      · subst hnone
        rfl
      · subst hsid
        by_cases hempty : sid = ""
        · subst hempty
          simp [SessionManager.get_or_create_session]
        · have hne : (sid == "") = false := by simp [hempty]
          rcases hrest with habsent | ⟨s0, hs0, hexp⟩
          · simp [SessionManager.get_or_create_session, hne,
              SessionManager.get_session, habsent]
          · simp [SessionManager.get_or_create_session, hne,
              SessionManager.get_session, hs0, hexp]
    refine ⟨hgoal, ?_, ?_, ?_, ?_⟩
    · rw [hgoal]
      rfl
    · rw [hgoal]
      exact hfresh
    · rw [hgoal]
      rfl
    · intro sid _ hne
      rw [hgoal]
      exact hne
  · intro sid s0 hsid hne hs0 hexp
    subst hsid
    have hneb : (sid == "") = false := by simp [hne]
    simp [SessionManager.get_or_create_session, hneb,
      SessionManager.get_session, hs0, hexp]

/-- Witness for C5: an expired presented identity yields a fresh session
under the freshly drawn identity. -/
theorem claim5_witness :
    ((SessionManager.mk [(("old"), Session.mk ("old") [] 0 0)]
        ).get_or_create_session (some ("old")) 31 ("fresh")).1 =
      newSession ("fresh") 31 ∧
    ((SessionManager.mk [(("old"), Session.mk ("old") [] 0 0)]
        ).get_or_create_session (some ("old")) 31 ("fresh")).1.messages = [] ∧
    ((SessionManager.mk [(("old"), Session.mk ("old") [] 0 0)]
        ).get_or_create_session (some ("old")) 31
        ("fresh")).1.is_expired 31 = false ∧
    ((SessionManager.mk [(("old"), Session.mk ("old") [] 0 0)]
        ).get_or_create_session (some ("old")) 31
        ("fresh")).1.session_id = ("fresh") ∧
    (∀ sid, (some ("old") : Option String) = some sid → ("fresh") ≠ sid →
      ((SessionManager.mk [(("old"), Session.mk ("old") [] 0 0)]
          ).get_or_create_session (some ("old")) 31
          ("fresh")).1.session_id ≠ sid) :=
  (claim5_get_or_create ⟨[(("old"), Session.mk ("old") [] 0 0)]⟩
      (some ("old")) 31 ("fresh")).1
    (Or.inr ⟨("old"), rfl, Or.inr ⟨Session.mk ("old") [] 0 0,
      by decide, by decide⟩⟩)

/-- Erasing the first entry with key `k` from an association list with
pairwise-distinct keys removes exactly the entries keyed `k`. -/
theorem eraseP_key_eq_filter :
    ∀ (l : List (String × Session)) (k : String),
    (l.map Prod.fst).Nodup →
    l.eraseP (fun p => p.1 == k) = l.filter (fun p => !(p.1 == k))
  | [], _, _ => rfl
  | p :: l, k, h => by
    rw [List.map_cons, List.nodup_cons] at h
    by_cases hp : p.1 = k
    · have hb : (p.1 == k) = true := beq_iff_eq.mpr hp
      rw [List.eraseP_cons, List.filter_cons, hb]
      simp only [cond_true, Bool.not_true]
      rw [if_neg (by simp)]
      symm
      rw [List.filter_eq_self]
      intro a ha
      simp only [Bool.not_eq_true', beq_eq_false_iff_ne]
      intro hak
      exact h.1 (List.mem_map.mpr ⟨a, ha, hak.trans hp.symm⟩)
    · have hb : (p.1 == k) = false := by simp [hp]
      rw [List.eraseP_cons, List.filter_cons, hb]
      simp only [cond_false, Bool.not_false]
      rw [if_pos trivial]
      exact congrArg (p :: ·) (eraseP_key_eq_filter l k h.2)

/-- Deleting each key of `K` in turn from an association list with
pairwise-distinct keys keeps exactly the entries whose key is not in `K`. -/
theorem foldl_eraseP_keys :
    ∀ (K : List String) (l : List (String × Session)),
    (l.map Prod.fst).Nodup →
    K.foldl (fun acc sid => acc.eraseP (fun p => p.1 == sid)) l =
      l.filter (fun p => !(K.contains p.1))
  | [], l, _ => by
    simp only [List.foldl_nil]
    symm
    rw [List.filter_eq_self]
    intro a _
    rfl
  | k :: K, l, h => by
    simp only [List.foldl_cons]
    rw [eraseP_key_eq_filter l k h]
    have h2 : ((l.filter (fun p => !(p.1 == k))).map Prod.fst).Nodup :=
      List.Nodup.sublist ((List.filter_sublist l).map Prod.fst) h
    rw [foldl_eraseP_keys K _ h2, List.filter_filter]
    apply List.filter_congr
    intro a _
    rw [List.contains_cons, Bool.not_or, Bool.and_comm]

/-- In an association list with pairwise-distinct keys, entries are
determined by their key. -/
theorem key_injective (l : List (String × Session))
    (h : (l.map Prod.fst).Nodup) (p q : String × Session)
    (hp : p ∈ l) (hq : q ∈ l) (hk : p.1 = q.1) : p = q := by
  by_contra hne
  rw [List.Nodup, List.pairwise_map] at h
  exact absurd hk
    (h.forall (fun a b hab => Ne.symm hab) hp hq hne)

/-- For an entry of a key-distinct association list, membership of its key in
the expired-key list coincides with its own expiry. -/
theorem contains_expired_keys (m : SessionManager) (now : Nat)
    (h : (m.sessions.map Prod.fst).Nodup) (p : String × Session)
    (hp : p ∈ m.sessions) :
    ((m.sessions.filter (fun q => q.2.is_expired now)).map
        Prod.fst).contains p.1 = p.2.is_expired now := by
  cases hexp : p.2.is_expired now with
  | true =>
    apply List.elem_eq_true_of_mem
    exact List.mem_map.mpr ⟨p, List.mem_filter.mpr ⟨hp, hexp⟩, rfl⟩
  | false =>
    by_contra hcontr
    rw [Bool.not_eq_false] at hcontr
    have hmem := List.mem_of_elem_eq_true hcontr
    rcases List.mem_map.mp hmem with ⟨q, hq, hqk⟩
    rcases List.mem_filter.mp hq with ⟨hqmem, hqexp⟩
    have := key_injective m.sessions h q p hqmem hp hqk
    rw [this, hexp] at hqexp
    cases hqexp

/-- Splitting a list by a Boolean predicate preserves the total length. -/
theorem filter_length_split (p : α → Bool) (l : List α) :
    (l.filter p).length + (l.filter (fun a => !(p a))).length = l.length := by
  induction l with
  | nil => rfl
  | cons a l ih =>
    by_cases h : p a <;>
      simp only [List.filter_cons, h, Bool.not_true, Bool.not_false,
        if_true, if_false, List.length_cons, Bool.false_eq_true,
        Bool.true_eq_false, ite_true, ite_false] <;>
      omega

/-- C7: `cleanup_expired_sessions` removes exactly the sessions whose
`last_activity` is older than the expiry window, returns the number removed,
and keeps every non-expired entry unchanged (same identity, turn list and
timestamps, i.e. the very same pair stays in the store). -/
theorem claim7_sweep_expired (m : SessionManager) (now : Nat)
    (h : (m.sessions.map Prod.fst).Nodup) :
    (m.cleanup_expired_sessions now).2.sessions =
      m.sessions.filter (fun p => !(p.2.is_expired now)) ∧
    (∀ p, p ∈ (m.cleanup_expired_sessions now).2.sessions ↔
      (p ∈ m.sessions ∧
       ¬(SESSION_TIMEOUT_MINUTES < now - p.2.last_activity))) ∧
    (m.cleanup_expired_sessions now).1 +
        (m.cleanup_expired_sessions now).2.get_session_count =
      m.get_session_count := by
  have hsessions : (m.cleanup_expired_sessions now).2.sessions =
      m.sessions.filter (fun p => !(p.2.is_expired now)) := by
    show ((m.sessions.filter (fun p => p.2.is_expired now)).map
        Prod.fst).foldl (fun l sid => l.eraseP (fun p => p.1 == sid))
        m.sessions = _
    rw [foldl_eraseP_keys _ _ h]
    apply List.filter_congr
    intro p hp
    rw [contains_expired_keys m now h p hp]
  refine ⟨hsessions, ?_, ?_⟩
  · intro p
    rw [hsessions, List.mem_filter]
    constructor
    · rintro ⟨hp, hexp⟩
      refine ⟨hp, ?_⟩
      simpa [Session.is_expired] using hexp
    · rintro ⟨hp, hexp⟩
      refine ⟨hp, ?_⟩
      simpa [Session.is_expired] using hexp
  · show ((m.sessions.filter (fun p => p.2.is_expired now)).map
        Prod.fst).length + _ = _
    rw [List.length_map]
    show _ + (m.cleanup_expired_sessions now).2.sessions.length =
      m.sessions.length
    rw [hsessions]
    exact filter_length_split _ _

/-- Witness for C7 at a store with one expired and one live session. -/
theorem claim7_witness :
    ((SessionManager.mk [(("a"), Session.mk ("a") [] 0 0),
        (("b"), Session.mk ("b") [] 0 40)]).cleanup_expired_sessions
        45).2.sessions =
      (SessionManager.mk [(("a"), Session.mk ("a") [] 0 0),
        (("b"), Session.mk ("b") [] 0 40)]).sessions.filter
        (fun p => !(p.2.is_expired 45)) ∧
    (∀ p, p ∈ ((SessionManager.mk [(("a"), Session.mk ("a") [] 0 0),
        (("b"), Session.mk ("b") [] 0 40)]).cleanup_expired_sessions
        45).2.sessions ↔
      (p ∈ (SessionManager.mk [(("a"), Session.mk ("a") [] 0 0),
        (("b"), Session.mk ("b") [] 0 40)]).sessions ∧
       ¬(SESSION_TIMEOUT_MINUTES < 45 - p.2.last_activity))) ∧
    ((SessionManager.mk [(("a"), Session.mk ("a") [] 0 0),
        (("b"), Session.mk ("b") [] 0 40)]).cleanup_expired_sessions 45).1 +
        ((SessionManager.mk [(("a"), Session.mk ("a") [] 0 0),
          (("b"), Session.mk ("b") [] 0 40)]).cleanup_expired_sessions
          45).2.get_session_count =
      (SessionManager.mk [(("a"), Session.mk ("a") [] 0 0),
        (("b"), Session.mk ("b") [] 0 40)]).get_session_count :=
  claim7_sweep_expired
    ⟨[(("a"), Session.mk ("a") [] 0 0), (("b"), Session.mk ("b") [] 0 40)]⟩
    45 (by decide)

/-! Lemmas about string joins, the dictionary model and the event loop. -/

theorem strJoin_nil : strJoin [] = "" := rfl

theorem strJoin_cons (a : String) (l : List String) :
    strJoin (a :: l) = a ++ strJoin l := rfl

theorem strJoin_append (A B : List String) :
    strJoin (A ++ B) = strJoin A ++ strJoin B := by
  induction A with
  | nil =>
    rw [List.nil_append, strJoin_nil, String.empty_append]
  | cons a A ih =>
    rw [List.cons_append, strJoin_cons, strJoin_cons, ih,
      String.append_assoc]

theorem dictGet_dictSet_self :
    ∀ (l : List (String × Session)) (k : String) (v : Session),
    dictGet (dictSet l k v) k = some v
  | [], k, v => by
    simp [dictGet, dictSet]
  | p :: l, k, v => by
    by_cases h : p.1 = k
    · have hb : (p.1 == k) = true := beq_iff_eq.mpr h
      simp [dictGet, dictSet, hb]
    · have hb : (p.1 == k) = false := by simp [h]
      show dictGet (if (p.1 == k) = true then (k, v) :: l
        else p :: dictSet l k v) k = some v
      rw [hb]
      simp only [Bool.false_eq_true, if_false]
      unfold dictGet
      rw [List.find?_cons_of_neg _ (by simp [hb])]
      exact dictGet_dictSet_self l k v

theorem processEvents_spec :
    ∀ (es : List SdkEvent) (full cur : String),
    (processEvents es full cur).1 = full ++ strJoin (es.filterMap eventDelta) ∧
    (processEvents es full cur).2.2.filterMap framePayload =
      es.filterMap eventDelta ∧
    (∀ f ∈ (processEvents es full cur).2.2, isMidFrame f = true)
  | [], full, cur => by
    refine ⟨?_, rfl, ?_⟩
    · show full = full ++ strJoin []
      rw [strJoin_nil, String.append_empty]
    · intro f hf
      cases hf
  | (SdkEvent.agentUpdated name) :: es, full, cur => by
    have ih := processEvents_spec es full name
    have hev : eventDelta (SdkEvent.agentUpdated name) = none := rfl
    refine ⟨?_, ?_, ?_⟩
    · show (processEvents es full name).1 = _
      rw [ih.1, List.filterMap_cons_none hev]
    · show (Frame.agent name :: (processEvents es full name).2.2).filterMap
        framePayload = _
      rw [List.filterMap_cons_none
          (show framePayload (Frame.agent name) = none from rfl),
        List.filterMap_cons_none hev]
      exact ih.2.1
    · intro f hf
      rcases List.mem_cons.mp hf with rfl | hmem
      · rfl
      · exact ih.2.2 f hmem
  | (SdkEvent.rawResponse d) :: es, full, cur => by
    cases hd : deltaOfData d with
    | none =>
      have ih := processEvents_spec es full cur
      have hred : processEvents (SdkEvent.rawResponse d :: es) full cur =
          processEvents es full cur := by
        simp only [processEvents, hd]
      have hev : eventDelta (SdkEvent.rawResponse d) = none := hd
      rw [hred]
      refine ⟨?_, ?_, ih.2.2⟩
      · rw [ih.1, List.filterMap_cons_none hev]
      · rw [ih.2.1, List.filterMap_cons_none hev]
    | some t =>
      have ih := processEvents_spec es (full ++ t) cur
      have hred : processEvents (SdkEvent.rawResponse d :: es) full cur =
          ((processEvents es (full ++ t) cur).1,
           (processEvents es (full ++ t) cur).2.1,
           Frame.content t :: (processEvents es (full ++ t) cur).2.2) := by
        simp only [processEvents, hd]
      have hev : eventDelta (SdkEvent.rawResponse d) = some t := hd
      rw [hred]
      refine ⟨?_, ?_, ?_⟩
      · show (processEvents es (full ++ t) cur).1 = _
        rw [ih.1, List.filterMap_cons_some hev, strJoin_cons,
          String.append_assoc]
      · show (Frame.content t ::
            (processEvents es (full ++ t) cur).2.2).filterMap framePayload = _
        rw [List.filterMap_cons_some
            (show framePayload (Frame.content t) = some t from rfl),
          List.filterMap_cons_some hev]
        rw [ih.2.1]
      · intro f hf
        rcases List.mem_cons.mp hf with rfl | hmem
        · rfl
        · exact ih.2.2 f hmem
  | SdkEvent.otherEvent :: es, full, cur => by
    have ih := processEvents_spec es full cur
    have hev : eventDelta SdkEvent.otherEvent = none := rfl
    refine ⟨?_, ?_, ih.2.2⟩
    · show (processEvents es full cur).1 = _
      rw [ih.1, List.filterMap_cons_none hev]
    · show (processEvents es full cur).2.2.filterMap framePayload = _
      rw [ih.2.1, List.filterMap_cons_none hev]

/-- C3: for every turn of the streaming path and every responder behaviour
(including one that raises at any point), the `session` frame comes first
and is followed only by `agent` / `content` frames until the single terminal
frame: `done` exactly when the stream succeeded, `error` exactly when it
raised; after an `error` no `done` is ever emitted, and the session store is
left exactly as it was after the user-turn append, so no assistant turn is
recorded for that turn. -/
theorem claim3_event_ordering (message : String) (sidOpt : Option String)
    (m : SessionManager) (now : Nat) (newId : String) (run : StreamedRun) :
    ∃ mid : List Frame,
      (∀ f ∈ mid, isMidFrame f = true) ∧
      ((∃ a, run.outcome = StreamOutcome.success ∧
         (stream_response message sidOpt m now newId run).1 =
           Frame.session
               (afterUserAppend message sidOpt m now newId).1.session_id ::
             (mid ++ [Frame.done a])) ∨
       (∃ e, run.outcome = StreamOutcome.failure e ∧
         (stream_response message sidOpt m now newId run).1 =
           Frame.session
               (afterUserAppend message sidOpt m now newId).1.session_id ::
             (mid ++ [Frame.error e]) ∧
         (stream_response message sidOpt m now newId run).2 =
           (afterUserAppend message sidOpt m now newId).2)) := by
  obtain ⟨events, outcome, fo, la⟩ := run
  have hmid := (processEvents_spec events ("") ("Triage Assistant")).2.2
  cases outcome with
  | failure e =>
    exact ⟨(processEvents events ("") ("Triage Assistant")).2.2, hmid,
      Or.inr ⟨e, rfl, rfl, rfl⟩⟩
  | success =>
    by_cases hcond : (processEvents events ("") ("Triage Assistant")).1 = "" ∧
        fo ≠ ""
    · refine ⟨(processEvents events ("") ("Triage Assistant")).2.2 ++
        [Frame.content fo], ?_, Or.inl
        ⟨(match la with
          | some nm => nm
          | none => (processEvents events ("") ("Triage Assistant")).2.1),
         rfl, ?_⟩⟩
      · intro f hf
        rcases List.mem_append.mp hf with hmem | hsing
        · exact hmid f hmem
        · rcases List.mem_cons.mp hsing with rfl | hemp
          · rfl
          · cases hemp
      · show (stream_response message sidOpt m now newId
          ⟨events, StreamOutcome.success, fo, la⟩).1 = _
        simp only [stream_response]
        rw [if_pos hcond, List.append_assoc]
        rfl
    · refine ⟨(processEvents events ("") ("Triage Assistant")).2.2, hmid,
        Or.inl
        ⟨(match la with
          | some nm => nm
          | none => (processEvents events ("") ("Triage Assistant")).2.1),
         rfl, ?_⟩⟩
      show (stream_response message sidOpt m now newId
        ⟨events, StreamOutcome.success, fo, la⟩).1 = _
      simp only [stream_response]
      rw [if_neg hcond]

/-- C6 (amended): when the responder call of the non-streaming path raises,
`send_message` appends no assistant turn (the store is exactly the state
after the user-turn append), the user turn remains recorded as the last
message of the stored session, and the handler raises an `HTTPException`
whose detail carries the error description instead of returning a
`success = false` response object. -/
theorem claim6_responder_failure (message : String) (sidOpt : Option String)
    (m : SessionManager) (now : Nat) (newId : String) (e : String) :
    (send_message message sidOpt m now newId (Except.error e)).1 =
      Except.error ("Error processing message: " ++ e) ∧
    (send_message message sidOpt m now newId (Except.error e)).2 =
      (afterUserAppend message sidOpt m now newId).2 ∧
    (∃ s pre,
      dictGet (send_message message sidOpt m now newId
            (Except.error e)).2.sessions
          (afterUserAppend message sidOpt m now newId).1.session_id =
        some s ∧
      s.messages = pre ++ [{ role := "user", content := message,
                             timestamp := now, agent_used := none }]) := by
  refine ⟨rfl, rfl, ?_⟩
  refine ⟨(afterUserAppend message sidOpt m now newId).1, ?_, ?_, ?_⟩
  · exact ((m.get_or_create_session sidOpt now
      newId).1.messages).drop
      ((m.get_or_create_session sidOpt now newId).1.messages.length + 1 -
        MAX_HISTORY_MESSAGES)
  · show dictGet (dictSet
        (m.get_or_create_session sidOpt now newId).2.sessions
        (m.get_or_create_session sidOpt now newId).1.session_id
        (afterUserAppend message sidOpt m now newId).1)
        (afterUserAppend message sidOpt m now newId).1.session_id = _
    exact dictGet_dictSet_self _ _ _
  · show ((m.get_or_create_session sidOpt now newId).1.add_message
        ("user") message none now).messages = _
    rw [add_message_messages, lastN_append_singleton _ (by decide)]

/-- Witness for C6 at a concrete failing responder call. -/
theorem claim6_witness :
    (send_message ("hello") none ⟨[]⟩ 0 ("s1")
        (Except.error ("backend down"))).1 =
      Except.error ("Error processing message: backend down") ∧
    (send_message ("hello") none ⟨[]⟩ 0 ("s1")
        (Except.error ("backend down"))).2 =
      (afterUserAppend ("hello") none ⟨[]⟩ 0 ("s1")).2 ∧
    (∃ s pre,
      dictGet (send_message ("hello") none ⟨[]⟩ 0 ("s1")
            (Except.error ("backend down"))).2.sessions
          (afterUserAppend ("hello") none ⟨[]⟩ 0 ("s1")).1.session_id =
        some s ∧
      s.messages = pre ++ [{ role := "user", content := ("hello"),
                             timestamp := 0, agent_used := none }]) :=
  claim6_responder_failure ("hello") none ⟨[]⟩ 0 ("s1") ("backend down")

/-- C6 counterexample: at a concrete failing responder call the handler's
result is the raised `HTTPException` (an `Except.error`), not a returned
`ChatResponse` with `success = false` as the claim states. -/
theorem claim6_counterexample :
    (send_message ("hello") none ⟨[]⟩ 0 ("s1")
        (Except.error ("backend down"))).1 =
      Except.error ("Error processing message: backend down") ∧
    (match (send_message ("hello") none ⟨[]⟩ 0 ("s1")
        (Except.error ("backend down"))).1 with
     | Except.ok _ => false
     | Except.error _ => true) = true :=
  ⟨rfl, rfl⟩

/-- C2: for one fixed responder behaviour — one final answer that the
non-streaming call reports as `final_output` and that the stream either
delivers in fragments (whose concatenation the gateway then reports as the
aggregate, hypothesis `hcoh`) or does not fragment at all — the
concatenation, in emission order, of the `content` payloads the streaming
path emits equals the `response` the non-streaming path returns, and equals
the content of the assistant turn stored by the streaming path; in
particular, when the stream yields no text fragment but the final aggregate
is non-empty, that aggregate is emitted as a single `content` frame. -/
theorem claim2_stream_refines (message : String) (sidOpt : Option String)
    (m : SessionManager) (now : Nat) (newId : String) (run : StreamedRun)
    (res : RunResult)
    (hout : run.outcome = StreamOutcome.success)
    (hfo : res.final_output = run.final_output)
    (hcoh : strJoin (run.events.filterMap eventDelta) ≠ "" →
      run.final_output = strJoin (run.events.filterMap eventDelta)) :
    contentConcat (stream_response message sidOpt m now newId run).1 =
      run.final_output ∧
    (∃ resp, (send_message message sidOpt m now newId (Except.ok res)).1 =
      Except.ok resp ∧
      resp.response =
        contentConcat (stream_response message sidOpt m now newId run).1) ∧
    (∃ s pre ag,
      dictGet (stream_response message sidOpt m now newId run).2.sessions
          (afterUserAppend message sidOpt m now newId).1.session_id =
        some s ∧
      s.messages = pre ++
        [{ role := "assistant",
           content :=
             contentConcat (stream_response message sidOpt m now newId run).1,
           timestamp := now, agent_used := some ag }]) ∧
    (run.events.filterMap eventDelta = [] → run.final_output ≠ "" →
      (stream_response message sidOpt m now newId run).1.filterMap
        framePayload = [run.final_output]) := by
  obtain ⟨events, outcome, fo, la⟩ := run
  replace hout : outcome = StreamOutcome.success := hout
  subst hout
  replace hfo : res.final_output = fo := hfo
  replace hcoh : strJoin (events.filterMap eventDelta) ≠ "" →
    fo = strJoin (events.filterMap eventDelta) := hcoh
  have hspec := processEvents_spec events ("") ("Triage Assistant")
  have hfull : (processEvents events ("") ("Triage Assistant")).1 =
      strJoin (events.filterMap eventDelta) := by
    rw [hspec.1, String.empty_append]
  have hpay : (processEvents events ("")
      ("Triage Assistant")).2.2.filterMap framePayload =
      events.filterMap eventDelta := hspec.2.1
  by_cases hcond : (processEvents events ("") ("Triage Assistant")).1 = "" ∧
      fo ≠ ""
  · have hstream : ∃ ag,
        (stream_response message sidOpt m now newId
          ⟨events, StreamOutcome.success, fo, la⟩).1 =
          Frame.session
              (afterUserAppend message sidOpt m now newId).1.session_id ::
            ((processEvents events ("") ("Triage Assistant")).2.2 ++
              [Frame.content fo, Frame.done ag]) ∧
        (stream_response message sidOpt m now newId
          ⟨events, StreamOutcome.success, fo, la⟩).2 =
          ⟨dictSet (afterUserAppend message sidOpt m now newId).2.sessions
            (afterUserAppend message sidOpt m now newId).1.session_id
            ((afterUserAppend message sidOpt m now newId).1.add_message
              ("assistant") fo (some ag) now)⟩ := by
      simp only [stream_response]
      rw [if_pos hcond]
      exact ⟨_, rfl, rfl⟩
    obtain ⟨AG, hstream1, hstream2⟩ := hstream
    have hcc : contentConcat (stream_response message sidOpt m now newId
        ⟨events, StreamOutcome.success, fo, la⟩).1 = fo := by
      rw [hstream1]
      unfold contentConcat
      rw [List.filterMap_cons_none
          (show framePayload (Frame.session _) = none from rfl),
        List.filterMap_append, hpay, strJoin_append, ← hfull, hcond.1,
        String.empty_append]
      show strJoin [fo] = fo
      rw [strJoin_cons, strJoin_nil, String.append_empty]
    refine ⟨hcc, ⟨_, rfl, ?_⟩, ?_, ?_⟩
    · show res.final_output = _
      rw [hcc]
      exact hfo
    · refine ⟨(afterUserAppend message sidOpt m now newId).1.add_message
          ("assistant") fo (some AG) now,
        (afterUserAppend message sidOpt m now newId).1.messages.drop
          ((afterUserAppend message sidOpt m now
            newId).1.messages.length + 1 - MAX_HISTORY_MESSAGES),
        AG, ?_, ?_⟩
      · rw [hstream2]
        exact dictGet_dictSet_self _ _ _
      · rw [hcc, add_message_messages, lastN_append_singleton _ (by decide)]
    · intro hdelta hfo'
      rw [hstream1, List.filterMap_cons_none
          (show framePayload (Frame.session _) = none from rfl),
        List.filterMap_append, hpay, hdelta, List.nil_append]
      rfl
  · push_neg at hcond
    have hF1fo : (processEvents events ("") ("Triage Assistant")).1 = fo := by
      by_cases hf1 : (processEvents events ("") ("Triage Assistant")).1 = ""
      · rw [hf1, hcond hf1]
      · have hne : strJoin (events.filterMap eventDelta) ≠ "" := by
          rw [← hfull]
          exact hf1
        rw [hcoh hne, ← hfull]
    have hcond' : ¬((processEvents events ("") ("Triage Assistant")).1 = "" ∧
        fo ≠ "") := by
      rintro ⟨h1, h2⟩
      exact h2 (hcond h1)
    have hstream : ∃ ag,
        (stream_response message sidOpt m now newId
          ⟨events, StreamOutcome.success, fo, la⟩).1 =
          Frame.session
              (afterUserAppend message sidOpt m now newId).1.session_id ::
            ((processEvents events ("") ("Triage Assistant")).2.2 ++
              [Frame.done ag]) ∧
        (stream_response message sidOpt m now newId
          ⟨events, StreamOutcome.success, fo, la⟩).2 =
          ⟨dictSet (afterUserAppend message sidOpt m now newId).2.sessions
            (afterUserAppend message sidOpt m now newId).1.session_id
            ((afterUserAppend message sidOpt m now newId).1.add_message
              ("assistant")
              (processEvents events ("") ("Triage Assistant")).1
              (some ag) now)⟩ := by
      simp only [stream_response]
      rw [if_neg hcond']
      exact ⟨_, rfl, rfl⟩
    obtain ⟨AG, hstream1, hstream2⟩ := hstream
    have hcc : contentConcat (stream_response message sidOpt m now newId
        ⟨events, StreamOutcome.success, fo, la⟩).1 = fo := by
      rw [hstream1]
      unfold contentConcat
      rw [List.filterMap_cons_none
          (show framePayload (Frame.session _) = none from rfl),
        List.filterMap_append, hpay]
      rw [show ([Frame.done AG]).filterMap framePayload = [] from rfl]
      rw [List.append_nil, ← hfull, hF1fo]
    refine ⟨hcc, ⟨_, rfl, ?_⟩, ?_, ?_⟩
    · show res.final_output = _
      rw [hcc]
      exact hfo
    · refine ⟨(afterUserAppend message sidOpt m now newId).1.add_message
          ("assistant")
          (processEvents events ("") ("Triage Assistant")).1
          (some AG) now,
        (afterUserAppend message sidOpt m now newId).1.messages.drop
          ((afterUserAppend message sidOpt m now
            newId).1.messages.length + 1 - MAX_HISTORY_MESSAGES),
        AG, ?_, ?_⟩
      · rw [hstream2]
        exact dictGet_dictSet_self _ _ _
      · rw [hcc, ← hF1fo, add_message_messages,
          lastN_append_singleton _ (by decide)]
    · intro hdelta hfo'
      have hf1 : (processEvents events ("") ("Triage Assistant")).1 = "" := by
        rw [hfull, hdelta, strJoin_nil]
      exact absurd (hcond hf1) hfo'

/-- Witness for C2 at a concrete two-fragment stream whose aggregate matches
the fragments. -/
theorem claim2_witness :
    ((StreamedRun.mk
        [SdkEvent.rawResponse (RawData.outputTextDelta ("hel")),
         SdkEvent.agentUpdated ("General"),
         SdkEvent.rawResponse (RawData.outputTextDelta ("lo"))]
        StreamOutcome.success ("hello")
        (some ("General"))).outcome = StreamOutcome.success ∧
     (RunResult.mk ("hello") (some ("General"))).final_output =
       (StreamedRun.mk
         [SdkEvent.rawResponse (RawData.outputTextDelta ("hel")),
          SdkEvent.agentUpdated ("General"),
          SdkEvent.rawResponse (RawData.outputTextDelta ("lo"))]
         StreamOutcome.success ("hello")
         (some ("General"))).final_output) ∧
    contentConcat (stream_response ("hi") none ⟨[]⟩ 0 ("sid1")
        (StreamedRun.mk
          [SdkEvent.rawResponse (RawData.outputTextDelta ("hel")),
           SdkEvent.agentUpdated ("General"),
           SdkEvent.rawResponse (RawData.outputTextDelta ("lo"))]
          StreamOutcome.success ("hello") (some ("General")))).1 =
      (StreamedRun.mk
        [SdkEvent.rawResponse (RawData.outputTextDelta ("hel")),
         SdkEvent.agentUpdated ("General"),
         SdkEvent.rawResponse (RawData.outputTextDelta ("lo"))]
        StreamOutcome.success ("hello") (some ("General"))).final_output :=
  ⟨⟨rfl, rfl⟩,
   (claim2_stream_refines ("hi") none ⟨[]⟩ 0 ("sid1")
     (StreamedRun.mk
       [SdkEvent.rawResponse (RawData.outputTextDelta ("hel")),
        SdkEvent.agentUpdated ("General"),
        SdkEvent.rawResponse (RawData.outputTextDelta ("lo"))]
       StreamOutcome.success ("hello") (some ("General")))
     (RunResult.mk ("hello") (some ("General")))
     rfl rfl (by intro h; rfl)).1⟩


/-- C10: an input that is empty or consists only of whitespace is blocked by
`check_unsafe_content` with the reason reserved for empty input — the empty
check runs before any unsafe-pattern search, so such an input is never
reported safe and never reported as a pattern match. -/
theorem claim10_blank_input_blocked (s : String)
    (h : s.toList.all isPySpace = true) :
    check_unsafe_content s =
      { is_safe := false, reason := "Input cannot be empty.",
        tripwire_triggered := true } := by
  have h1 : s.toList.dropWhile isPySpace = [] :=
    List.dropWhile_eq_nil_iff.mpr (fun x hx => List.all_eq_true.mp h x hx)
  unfold check_unsafe_content pyStrip
  rw [h1]
  rfl

/-- Witness for C10 at a whitespace-only input. -/
theorem claim10_witness :
    ((" \t ").toList.all isPySpace = true) ∧
    check_unsafe_content (" \t ") =
      { is_safe := false, reason := "Input cannot be empty.",
        tripwire_triggered := true } :=
  ⟨by decide, claim10_blank_input_blocked (" \t ") (by decide)⟩

/-- C9 (amended): when the input guardrail trips, the manual orchestration
path short-circuits — the responder is never invoked, the returned result
has `success = false`, `routed_to = "blocked"` and carries the validation
reason in `errors` — and the function performs no session mutation at all:
in particular no assistant turn is appended, but equally no user turn is
recorded, because this module keeps no conversation history. -/
theorem claim9_blocked_short_circuit (input : String)
    (complete : Except String String)
    (h : (check_unsafe_content input).tripwire_triggered = true) :
    process_with_guardrails_manual input complete =
      ({ success := false, routed_to := "blocked",
         final_response := "Request blocked by safety guardrails.",
         guardrail_passed := false, warnings := [],
         errors := [(check_unsafe_content input).reason] }, []) := by
  unfold process_with_guardrails_manual
  rw [if_pos h]

/-- Witness for C9 at the concrete blocked input of the spec's scenario. -/
theorem claim9_witness :
    (check_unsafe_content ("attack system")).tripwire_triggered = true ∧
    process_with_guardrails_manual ("attack system")
        (Except.error ("network unreachable")) =
      ({ success := false, routed_to := "blocked",
         final_response := "Request blocked by safety guardrails.",
         guardrail_passed := false, warnings := [],
         errors := [(check_unsafe_content ("attack system")).reason] }, []) :=
  ⟨by decide, claim9_blocked_short_circuit ("attack system")
    (Except.error ("network unreachable")) (by decide)⟩

/-- C9 counterexample: on the blocked input `"attack system"` the manual
orchestration path performs no effect at all — its action trace is empty, so
in particular no user turn is recorded anywhere, against the claim that the
user turn is still recorded as attempted; the result is nevertheless the
blocked `success = false` outcome. -/
theorem claim9_counterexample :
    (process_with_guardrails_manual ("attack system")
      (Except.ok ("all good here"))).2 = [] ∧
    (TurnAction.user_turn_appended ("attack system") ∉
      (process_with_guardrails_manual ("attack system")
        (Except.ok ("all good here"))).2) ∧
    (process_with_guardrails_manual ("attack system")
      (Except.ok ("all good here"))).1.success = false := by
  refine ⟨?_, ?_, ?_⟩ <;> decide

/-- Witness for C3 at a concrete stream that raises after one fragment. -/
theorem claim3_witness :
    ∃ mid : List Frame,
      (∀ f ∈ mid, isMidFrame f = true) ∧
      ((∃ a, (StreamedRun.mk
          [SdkEvent.rawResponse (RawData.outputTextDelta ("par"))]
          (StreamOutcome.failure ("boom")) ("") none).outcome =
            StreamOutcome.success ∧
        (stream_response ("hi") none ⟨[]⟩ 0 ("sid1")
          (StreamedRun.mk
            [SdkEvent.rawResponse (RawData.outputTextDelta ("par"))]
            (StreamOutcome.failure ("boom")) ("") none)).1 =
          Frame.session (afterUserAppend ("hi") none ⟨[]⟩ 0
              ("sid1")).1.session_id ::
            (mid ++ [Frame.done a])) ∨
       (∃ e, (StreamedRun.mk
          [SdkEvent.rawResponse (RawData.outputTextDelta ("par"))]
          (StreamOutcome.failure ("boom")) ("") none).outcome =
            StreamOutcome.failure e ∧
        (stream_response ("hi") none ⟨[]⟩ 0 ("sid1")
          (StreamedRun.mk
            [SdkEvent.rawResponse (RawData.outputTextDelta ("par"))]
            (StreamOutcome.failure ("boom")) ("") none)).1 =
          Frame.session (afterUserAppend ("hi") none ⟨[]⟩ 0
              ("sid1")).1.session_id ::
            (mid ++ [Frame.error e]) ∧
        (stream_response ("hi") none ⟨[]⟩ 0 ("sid1")
          (StreamedRun.mk
            [SdkEvent.rawResponse (RawData.outputTextDelta ("par"))]
            (StreamOutcome.failure ("boom")) ("") none)).2 =
          (afterUserAppend ("hi") none ⟨[]⟩ 0 ("sid1")).2)) :=
  claim3_event_ordering ("hi") none ⟨[]⟩ 0 ("sid1")
    (StreamedRun.mk [SdkEvent.rawResponse (RawData.outputTextDelta ("par"))]
      (StreamOutcome.failure ("boom")) ("") none)
